import Mathlib

/-!
Verification of the conversion pipeline in
`backend/routers/gemini/idealist_to_geo.py` (function `convert_idealist_to_geo`).

The embedding models the function as a deterministic computation over an
environment `Env` describing the behavior of its external collaborators
(the link search, the dynamically imported completion and parser modules,
the completion call on each attempt, the parser on each raw text, and the
link reconciler).  The result is a pair of an event trace (which completion
calls, parser calls and sleeps happened, and with what arguments) and an
outcome (a returned record list, an HTTPException raised by the function,
or a propagated collaborator failure).

Machine details that do not matter to the claims are abstracted: the parsed
record payload (latlon, country) is an opaque string field, and sleep
durations are measured in tenths of a time unit (so `0.8 * attempt` is the
natural number `8 * attempt` and `0.6 * attempt` is `6 * attempt`), which
keeps them exact integers.
-/

namespace IdealistToGeo

/-- A parsed geo record.  The parser-produced content (latlon, country) is kept
opaque in `payload`; the reconciler later fills `link` and `name`. -/
structure GeoRecord where
  payload : String
  link : Option String := none
  name : Option String := none
deriving DecidableEq

/-- Behavior of `search_volunteer_links` in a run: it may raise an
HTTPException (re-raised by the code), raise some other exception, or return a
result from which the code extracts the list of links (line 79). -/
inductive SearchBehavior where
  | httpExc
  | raises
  | ok (links : List String)
deriving DecidableEq

/-- Behavior of a dynamic module import: success, an ordinary exception, or
SystemExit (which `except Exception` does not catch). -/
inductive ImportBehavior where
  | ok
  | raisesExc
  | sysExit
deriving DecidableEq

/-- Behavior of one `generate_response` invocation: raise, or return raw text.
The code coerces a non-string return with `str(...)`, so a returned value is
modelled as the resulting string. -/
inductive GenBehavior where
  | raises
  | returns (text : String)
deriving DecidableEq

/-- Behavior of `parse_gemini_latlon_list` on a given raw text: raise, return
None, or return a list of records. -/
inductive ParseBehavior where
  | raises
  | retNone
  | records (rs : List GeoRecord)
deriving DecidableEq

/-- The environment of one run: the behavior of every external collaborator
the function touches.  `gen i` is the behavior of the completion call on
attempt `i` (attempts are 1-indexed); `parse t` is the behavior of the parser
on raw text `t`; `reconcileFails` says whether `add_links_to_locations`
raises on this run. -/
structure Env where
  search : SearchBehavior
  cgImport : ImportBehavior
  genCallable : Bool
  parserImportOk : Bool
  gen : Nat → GenBehavior
  parse : String → ParseBehavior
  reconcileFails : Bool

/-- Configuration read by the function: `GEMINI_MAX_RETRIES` parsed with
`int(...)` (hence an integer, possibly zero or negative), the optional
`GEMINI_STRONG_MODEL` and `GEMINI_FAST_MODEL` environment values, and the
optional `model` query parameter. -/
structure Config where
  maxRetries : Int
  strongModel : Option String
  fastModel : Option String
  model : Option String

/-- Python truthiness of an optional string: `None` and the empty string are
falsy. -/
def truthy : Option String → Bool
  | none => false
  | some s => !s.isEmpty

/-- Python `a or b` on optional strings. -/
def pyOr (a b : Option String) : Option String := if truthy a then a else b

/-- Model selection for attempt `i` (lines 128-131):
attempt 1 uses `model or FAST_MODEL`, later attempts use
`model or STRONG_MODEL or FAST_MODEL`. -/
def modelFor (cfg : Config) (i : Nat) : Option String :=
  if i = 1 then pyOr cfg.model cfg.fastModel
  else pyOr cfg.model (pyOr cfg.strongModel cfg.fastModel)

/-- Observable events of a run, in order: a completion call (with the attempt
number and the model argument passed), a parser call (attempt number and raw
text), a sleep (duration in tenths of a time unit), and the reconciler call
(with the parsed list passed to it). -/
inductive Event where
  | callGemini (attempt : Nat) (model : Option String)
  | parseCall (attempt : Nat) (text : String)
  | sleep (tenths : Nat)
  | reconcileCall (parsed : List GeoRecord)
deriving DecidableEq

/-- Outcome of a run: a normal return, an HTTPException raised by the function
itself, the search HTTPException re-raised unchanged (line 74), a SystemExit
propagating from the completion-module import (lines 30-32; `except Exception`
at line 110 does not catch it), or an exception propagating from the
parser-module load at line 119 (which has no handler). -/
inductive Outcome where
  | ok (records : List GeoRecord)
  | httpError (status : Nat) (detail : String)
  | searchHTTPReRaised
  | sysExitPropagated
  | parserImportRaised
deriving DecidableEq

/-- Modelled from the spec: `add_links_to_locations` lives in
`utils/add_links.py`, which is not present under `src/`.  Per the spec
(sections 4.4 and 3) it pairs each parsed record with the link at the
corresponding position and injects `link` and a `name` derived from the link;
the derivation of the name is left unspecified, so it is modelled as the link
string itself.  Pairing is positional, so the output length is the minimum of
the two input lengths. -/
def add_links_to_locations (parsed : List GeoRecord) (links : List String) :
    List GeoRecord :=
  (parsed.zip links).map fun p =>
    { p.1 with link := some p.2, name := some p.2 }

/-- The record list an attempt ends up with after the parse step
(lines 150-156): a parser exception or a `None` return is replaced by the
empty list. -/
def parsedOfAttempt (env : Env) (text : String) : List GeoRecord :=
  match env.parse text with
  | ParseBehavior.records rs => rs
  | _ => []

/-- The `while attempt < MAX_RETRIES` loop (lines 125-165), as structural
recursion on the number of remaining iterations.  `remaining` is
`MAX_RETRIES - attempt` (so the current attempt number is `attempt + 1` and
`attempt < MAX_RETRIES` inside the body corresponds to `0 < remaining` after
the decrement); `parsed` is the running value of `parsed_locations`.  The
result is the event trace plus either the loop exit value of
`parsed_locations` or the detail of the HTTPException raised at line 147. -/
def attemptLoop (env : Env) (cfg : Config) :
    Nat → Nat → Option (List GeoRecord) →
    List Event × Except String (Option (List GeoRecord))
  | 0, _, parsed => ([], Except.ok parsed)
  | r + 1, attempt, parsed =>
    let i := attempt + 1
    let m := modelFor cfg i
    match env.gen i with
    | GenBehavior.raises =>
      if 0 < r then
        let rest := attemptLoop env cfg r i parsed
        (Event.callGemini i m :: Event.sleep (8 * i) :: rest.1,
         rest.2)
      else
        ([Event.callGemini i m],
         Except.error ("Upstream Gemini call failed repeatedly."))
    | GenBehavior.returns text =>
      let newParsed := parsedOfAttempt env text
      if newParsed.isEmpty then
        if 0 < r then
          let rest := attemptLoop env cfg r i (some newParsed)
          (Event.callGemini i m :: Event.parseCall i text ::
             Event.sleep (6 * i) :: rest.1,
           rest.2)
        else
          ([Event.callGemini i m, Event.parseCall i text],
           Except.ok (some newParsed))
      else
        ([Event.callGemini i m, Event.parseCall i text],
         Except.ok (some newParsed))

/-- The whole of `convert_idealist_to_geo` (lines 56-177): search, the two
collaborator module loads, the retry loop, the post-loop guard testing
whether `parsed_locations` is None, and the reconciliation step with its
degrade-on-failure handler. -/
def convert_idealist_to_geo (env : Env) (cfg : Config) : List Event × Outcome :=
  match env.search with
  | SearchBehavior.httpExc => ([], Outcome.searchHTTPReRaised)
  | SearchBehavior.raises => ([], Outcome.ok [])
  | SearchBehavior.ok links =>
    match env.cgImport with
    | ImportBehavior.sysExit => ([], Outcome.sysExitPropagated)
    | ImportBehavior.raisesExc => ([], Outcome.ok [])
    | ImportBehavior.ok =>
      if !env.genCallable then ([], Outcome.ok [])
      else if !env.parserImportOk then ([], Outcome.parserImportRaised)
      else
        let run := attemptLoop env cfg cfg.maxRetries.toNat 0 none
        match run.2 with
        | Except.error detail => (run.1, Outcome.httpError 502 detail)
        | Except.ok none =>
          (run.1,
           Outcome.httpError 502
             ("Failed to obtain parsable response from Gemini."))
        | Except.ok (some parsed) =>
          (run.1 ++ [Event.reconcileCall parsed],
           Outcome.ok
             (if env.reconcileFails then parsed
              else add_links_to_locations parsed links))

/-- Number of completion-client invocations recorded in a trace. -/
def callCount (evs : List Event) : Nat :=
  evs.countP fun e =>
    match e with
    | Event.callGemini _ _ => true
    | _ => false

/-- The sleep durations (in tenths of a time unit) recorded in a trace, in
order. -/
def sleeps (evs : List Event) : List Nat :=
  evs.filterMap fun e =>
    match e with
    | Event.sleep q => some q
    | _ => none

/-- Replacing, on every text, a parser exception or a `None` return by an
empty-list return. -/
def normalizeParse (p : String → ParseBehavior) : String → ParseBehavior :=
  fun t =>
    match p t with
    | ParseBehavior.raises => ParseBehavior.records []
    | ParseBehavior.retNone => ParseBehavior.records []
    | x => x

/-- Fixture: a two-link input list for concrete runs. -/
def wLinks : List String := ["u", "v"]

/-- Fixture: a single-link input list. -/
def oneLink : List String := ["u"]

/-- Fixture: a parsed record. -/
def recA : GeoRecord := { payload := "p1" }

/-- Fixture: a second parsed record. -/
def recB : GeoRecord := { payload := "p2" }

/-- Fixture: search and both imports succeed; the completion client raises on
every attempt; the parser raises on every text; the reconciler works. -/
def envAllRaise : Env :=
  { search := SearchBehavior.ok wLinks
    cgImport := ImportBehavior.ok
    genCallable := true
    parserImportOk := true
    gen := fun _ => GenBehavior.raises
    parse := fun _ => ParseBehavior.raises
    reconcileFails := false }

/-- Fixture: the completion always returns the unparsable text ERROR, on which
the parser raises. -/
def envUnparsable : Env :=
  { envAllRaise with gen := fun _ => GenBehavior.returns ("ERROR") }

/-- Fixture: the completion returns OK and the parser yields one record. -/
def envSuccess : Env :=
  { envAllRaise with
    gen := fun _ => GenBehavior.returns ("OK")
    parse := fun _ => ParseBehavior.records [recA] }

/-- Fixture: successful parse but the reconciler raises. -/
def envDegrade : Env := { envSuccess with reconcileFails := true }

/-- Fixture: importing gemini.call_gemini raises an ordinary exception. -/
def envImportExc : Env :=
  { envAllRaise with cgImport := ImportBehavior.raisesExc }

/-- Fixture: gemini.call_gemini imports but exposes no callable
generate_response. -/
def envNoGen : Env := { envAllRaise with genCallable := false }

/-- Fixture: the link search raises an HTTPException. -/
def envSearchHttp : Env :=
  { envAllRaise with search := SearchBehavior.httpExc }

/-- Fixture: the link search raises an ordinary exception. -/
def envSearchRaises : Env :=
  { envAllRaise with search := SearchBehavior.raises }

/-- Fixture: one input link, a parser that returns two records, and a
reconciler that raises. -/
def envOversize : Env :=
  { envAllRaise with
    search := SearchBehavior.ok oneLink
    gen := fun _ => GenBehavior.returns ("OK")
    parse := fun _ => ParseBehavior.records [recA, recB]
    reconcileFails := true }

/-- Fixture: two attempts, no configured models, no caller model. -/
def cfgTwo : Config :=
  { maxRetries := 2, strongModel := none, fastModel := none, model := none }

/-- Fixture: a zero retry budget. -/
def cfgZero : Config :=
  { maxRetries := 0, strongModel := none, fastModel := none, model := none }

/-- Fixture: two attempts with fast and strong models configured. -/
def cfgModels : Config :=
  { maxRetries := 2, strongModel := some ("s"), fastModel := some ("f"),
    model := none }

@[simp] lemma callCount_nil : callCount [] = 0 := rfl

@[simp] lemma callCount_cons_call (i : Nat) (m : Option String) (es : List Event) :
    callCount (Event.callGemini i m :: es) = callCount es + 1 := by
  simp [callCount, List.countP_cons]

@[simp] lemma callCount_cons_parse (i : Nat) (t : String) (es : List Event) :
    callCount (Event.parseCall i t :: es) = callCount es := by
  simp [callCount, List.countP_cons]

@[simp] lemma callCount_cons_sleep (d : Nat) (es : List Event) :
    callCount (Event.sleep d :: es) = callCount es := by
  simp [callCount, List.countP_cons]

@[simp] lemma callCount_cons_reconcile (p : List GeoRecord) (es : List Event) :
    callCount (Event.reconcileCall p :: es) = callCount es := by
  simp [callCount, List.countP_cons]

@[simp] lemma callCount_append (l1 l2 : List Event) :
    callCount (l1 ++ l2) = callCount l1 + callCount l2 := by
  simp [callCount, List.countP_append]

@[simp] lemma sleeps_nil : sleeps [] = [] := rfl

@[simp] lemma sleeps_cons_call (i : Nat) (m : Option String) (es : List Event) :
    sleeps (Event.callGemini i m :: es) = sleeps es := by
  simp [sleeps]

@[simp] lemma sleeps_cons_parse (i : Nat) (t : String) (es : List Event) :
    sleeps (Event.parseCall i t :: es) = sleeps es := by
  simp [sleeps]

@[simp] lemma sleeps_cons_sleep (d : Nat) (es : List Event) :
    sleeps (Event.sleep d :: es) = d :: sleeps es := by
  simp [sleeps]

@[simp] lemma sleeps_cons_reconcile (p : List GeoRecord) (es : List Event) :
    sleeps (Event.reconcileCall p :: es) = sleeps es := by
  simp [sleeps]

@[simp] lemma sleeps_append (l1 l2 : List Event) :
    sleeps (l1 ++ l2) = sleeps l1 ++ sleeps l2 := by
  simp [sleeps]

/-- When the completion client raises on every attempt, a loop with `r > 0`
iterations left raises the transport HTTPException, makes exactly `r` calls,
and sleeps `0.8 * attempt` time units (8 tenths times the attempt number)
after each attempt except the last. -/
lemma attemptLoop_allRaise (env : Env) (cfg : Config)
    (hAll : ∀ i, env.gen i = GenBehavior.raises) :
    ∀ r a p, 0 < r →
      (attemptLoop env cfg r a p).2 =
        Except.error ("Upstream Gemini call failed repeatedly.") ∧
      callCount (attemptLoop env cfg r a p).1 = r ∧
      sleeps (attemptLoop env cfg r a p).1 =
        (List.range (r - 1)).map (fun k => 8 * (a + 1 + k)) := by
  intro r
  induction r with
  | zero => intro a p h; exact absurd h (by simp)
  | succ r ih =>
    intro a p _
    by_cases hr : 0 < r
    · have hrec := ih (a + 1) p hr
      simp only [attemptLoop, hAll (a + 1), hr, if_pos]
      refine ⟨hrec.1, ?_, ?_⟩
      · simp [hrec.2.1]
      · simp only [sleeps_cons_call, sleeps_cons_sleep, hrec.2.2, Nat.succ_sub_one]
        conv_rhs => rw [show r = (r - 1) + 1 by omega, List.range_succ_eq_map]
        simp only [List.map_cons, List.map_map, Nat.add_zero]
        refine congrArg₂ _ rfl ?_
        refine List.map_congr_left ?_
        intro k _
        simp only [Function.comp_apply]
        omega
    · have hr0 : r = 0 := by omega
      subst hr0
      simp [attemptLoop, hAll (a + 1)]

/-- Every completion call recorded by the loop carries an attempt number in
the window of attempts the loop may run, and the model argument chosen by the
escalation rule for that attempt. -/
lemma attemptLoop_mem_call (env : Env) (cfg : Config) :
    ∀ r a p i m, Event.callGemini i m ∈ (attemptLoop env cfg r a p).1 →
      a < i ∧ i ≤ a + r ∧ m = modelFor cfg i := by
  intro r
  induction r with
  | zero => intro a p i m h; simp [attemptLoop] at h
  | succ r ih =>
    intro a p i m h
    cases hg : env.gen (a + 1) with
    | raises =>
      by_cases hr : 0 < r
      · simp [attemptLoop, hg, hr] at h
        rcases h with ⟨h1, h2⟩ | h
        · subst h1; subst h2
          exact ⟨by omega, by omega, rfl⟩
        · obtain ⟨h1, h2, h3⟩ := ih (a + 1) p i m h
          exact ⟨by omega, by omega, h3⟩
      · simp [attemptLoop, hg, hr] at h
        obtain ⟨h1, h2⟩ := h
        subst h1; subst h2
        exact ⟨by omega, by omega, rfl⟩
    | returns t =>
      by_cases he : (parsedOfAttempt env t).isEmpty
      · by_cases hr : 0 < r
        · simp [attemptLoop, hg, he, hr] at h
          rcases h with ⟨h1, h2⟩ | h
          · subst h1; subst h2
            exact ⟨by omega, by omega, rfl⟩
          · obtain ⟨h1, h2, h3⟩ := ih (a + 1) (some (parsedOfAttempt env t)) i m h
            exact ⟨by omega, by omega, h3⟩
        · simp [attemptLoop, hg, he, hr] at h
          obtain ⟨h1, h2⟩ := h
          subst h1; subst h2
          exact ⟨by omega, by omega, rfl⟩
      · simp [attemptLoop, hg, he] at h
        obtain ⟨h1, h2⟩ := h
        subst h1; subst h2
        exact ⟨by omega, by omega, rfl⟩

/-- If the attempt numbered `j` was reached by the loop (it is recorded in the
trace) and on that attempt the completion returned text whose parse is a
non-empty record list `rs`, then the loop exits with exactly `rs` and no
attempt after `j` is ever made. -/
lemma attemptLoop_first_success (env : Env) (cfg : Config) (j : Nat)
    (text : String) (rs : List GeoRecord)
    (hgj : env.gen j = GenBehavior.returns text)
    (hpt : env.parse text = ParseBehavior.records rs) (hne : rs ≠ []) :
    ∀ r a p m, Event.callGemini j m ∈ (attemptLoop env cfg r a p).1 →
      (attemptLoop env cfg r a p).2 = Except.ok (some rs) ∧
      ∀ i m2, j < i → Event.callGemini i m2 ∉ (attemptLoop env cfg r a p).1 := by
  have hpa : parsedOfAttempt env text = rs := by simp [parsedOfAttempt, hpt]
  have hef : rs.isEmpty = false := by
    cases rs with
    | nil => exact absurd rfl hne
    | cons x xs => rfl
  intro r
  induction r with
  | zero => intro a p m h; simp [attemptLoop] at h
  | succ r ih =>
    intro a p m h
    cases hg2 : env.gen (a + 1) with
    | raises =>
      have hj : j ≠ a + 1 := by
        intro hcontra
        rw [hcontra, hg2] at hgj
        exact GenBehavior.noConfusion hgj
      by_cases hr : 0 < r
      · simp [attemptLoop, hg2, hr] at h
        rcases h with ⟨h1, h2⟩ | h
        · exact absurd h1 hj
        · obtain ⟨hres, hno⟩ := ih (a + 1) p m h
          have hjb := (attemptLoop_mem_call env cfg r (a + 1) p j m h).1
          constructor
          · simp [attemptLoop, hg2, hr, hres]
          · intro i m2 hji
            simp [attemptLoop, hg2, hr]
            constructor
            · intro hia
              omega
            · exact hno i m2 hji
      · simp [attemptLoop, hg2, hr] at h
        exact absurd h.1 hj
    | returns t0 =>
      by_cases hj : j = a + 1
      · subst hj
        rw [hgj] at hg2
        have ht : t0 = text := (GenBehavior.returns.inj hg2).symm
        subst ht
        constructor
        · simp [attemptLoop, hgj, hpa, hef]
        · intro i m2 hji
          simp [attemptLoop, hgj, hpa, hef]
          intro hia
          omega
      · by_cases he : (parsedOfAttempt env t0).isEmpty
        · by_cases hr : 0 < r
          · simp [attemptLoop, hg2, he, hr] at h
            rcases h with ⟨h1, h2⟩ | h
            · exact absurd h1 hj
            · obtain ⟨hres, hno⟩ :=
                ih (a + 1) (some (parsedOfAttempt env t0)) m h
              have hjb := (attemptLoop_mem_call env cfg r (a + 1)
                (some (parsedOfAttempt env t0)) j m h).1
              constructor
              · simp [attemptLoop, hg2, he, hr, hres]
              · intro i m2 hji
                simp [attemptLoop, hg2, he, hr]
                constructor
                · intro hia
                  omega
                · exact hno i m2 hji
          · simp [attemptLoop, hg2, he, hr] at h
            exact absurd h.1 hj
        · simp [attemptLoop, hg2, he] at h
          exact absurd h.1 hj

/-- Any record list the loop exits with either was the incoming value of
`parsed_locations`, or is empty, or is literally a list that the parser
returned for some raw text. -/
lemma attemptLoop_ok_origin (env : Env) (cfg : Config) :
    ∀ r a p q, (attemptLoop env cfg r a p).2 = Except.ok (some q) →
      p = some q ∨ q = [] ∨ ∃ t, env.parse t = ParseBehavior.records q := by
  intro r
  induction r with
  | zero =>
    intro a p q h
    simp [attemptLoop] at h
    exact Or.inl h
  | succ r ih =>
    intro a p q h
    have hq : ∀ t0, parsedOfAttempt env t0 = q →
        q = [] ∨ ∃ t, env.parse t = ParseBehavior.records q := by
      intro t0 hpq
      cases hp0 : env.parse t0 with
      | records rs =>
        refine Or.inr ⟨t0, ?_⟩
        rw [hp0]
        simp [parsedOfAttempt, hp0] at hpq
        rw [hpq]
      | raises =>
        simp [parsedOfAttempt, hp0] at hpq
        exact Or.inl hpq
      | retNone =>
        simp [parsedOfAttempt, hp0] at hpq
        exact Or.inl hpq
    cases hg : env.gen (a + 1) with
    | raises =>
      by_cases hr : 0 < r
      · simp only [attemptLoop, hg, hr, if_pos] at h
        exact ih (a + 1) p q h
      · simp [attemptLoop, hg, hr] at h
    | returns t0 =>
      by_cases he : (parsedOfAttempt env t0).isEmpty
      · by_cases hr : 0 < r
        · simp only [attemptLoop, hg, he, hr, if_pos, if_true] at h
          rcases ih (a + 1) (some (parsedOfAttempt env t0)) q h with h1 | h1 | h1
          · exact Or.inr (hq t0 (Option.some.inj h1))
          · exact Or.inr (Or.inl h1)
          · exact Or.inr (Or.inr h1)
        · simp [attemptLoop, hg, he, hr] at h
          exact Or.inr (hq t0 h)
      · simp [attemptLoop, hg, he] at h
        exact Or.inr (hq t0 h)

lemma parsedOfAttempt_normalize (s : SearchBehavior) (c : ImportBehavior)
    (g pOk : Bool) (gen : Nat → GenBehavior) (parse : String → ParseBehavior)
    (rf : Bool) (t : String) :
    parsedOfAttempt (Env.mk s c g pOk gen (normalizeParse parse) rf) t =
      parsedOfAttempt (Env.mk s c g pOk gen parse rf) t := by
  cases h : parse t <;> simp [parsedOfAttempt, normalizeParse, h]

lemma attemptLoop_normalize (s : SearchBehavior) (c : ImportBehavior)
    (g pOk : Bool) (gen : Nat → GenBehavior) (parse : String → ParseBehavior)
    (rf : Bool) (cfg : Config) :
    ∀ r a p,
      attemptLoop (Env.mk s c g pOk gen (normalizeParse parse) rf)
          cfg r a p =
        attemptLoop (Env.mk s c g pOk gen parse rf) cfg r a p := by
  intro r
  induction r with
  | zero => intro a p; rfl
  | succ r ih =>
    intro a p
    simp only [attemptLoop, parsedOfAttempt_normalize, ih]

/-- Shape of the run when the loop raises the transport HTTPException. -/
lemma convert_error_path (env : Env) (cfg : Config) (links : List String)
    (d : String) (hs : env.search = SearchBehavior.ok links)
    (hc : env.cgImport = ImportBehavior.ok) (hgc : env.genCallable = true)
    (hpi : env.parserImportOk = true)
    (hl : (attemptLoop env cfg cfg.maxRetries.toNat 0 none).2 = Except.error d) :
    convert_idealist_to_geo env cfg =
      ((attemptLoop env cfg cfg.maxRetries.toNat 0 none).1,
       Outcome.httpError 502 d) := by
  simp [convert_idealist_to_geo, hs, hc, hgc, hpi, hl]

/-- Shape of the run when the loop never set `parsed_locations`. -/
lemma convert_none_path (env : Env) (cfg : Config) (links : List String)
    (hs : env.search = SearchBehavior.ok links)
    (hc : env.cgImport = ImportBehavior.ok) (hgc : env.genCallable = true)
    (hpi : env.parserImportOk = true)
    (hl : (attemptLoop env cfg cfg.maxRetries.toNat 0 none).2 =
      Except.ok none) :
    convert_idealist_to_geo env cfg =
      ((attemptLoop env cfg cfg.maxRetries.toNat 0 none).1,
       Outcome.httpError 502
         ("Failed to obtain parsable response from Gemini.")) := by
  simp [convert_idealist_to_geo, hs, hc, hgc, hpi, hl]

/-- Shape of the run when the loop exits with `parsed_locations` set. -/
lemma convert_some_path (env : Env) (cfg : Config) (links : List String)
    (parsed : List GeoRecord) (hs : env.search = SearchBehavior.ok links)
    (hc : env.cgImport = ImportBehavior.ok) (hgc : env.genCallable = true)
    (hpi : env.parserImportOk = true)
    (hl : (attemptLoop env cfg cfg.maxRetries.toNat 0 none).2 =
      Except.ok (some parsed)) :
    convert_idealist_to_geo env cfg =
      ((attemptLoop env cfg cfg.maxRetries.toNat 0 none).1 ++
         [Event.reconcileCall parsed],
       Outcome.ok
         (if env.reconcileFails then parsed
          else add_links_to_locations parsed links)) := by
  simp [convert_idealist_to_geo, hs, hc, hgc, hpi, hl]

/-- A non-empty trace means the search succeeded and both collaborator
modules loaded: every other path returns or raises before any event. -/
lemma convert_run_facts (env : Env) (cfg : Config) (e : Event)
    (h : e ∈ (convert_idealist_to_geo env cfg).1) :
    ∃ links, env.search = SearchBehavior.ok links ∧
      env.cgImport = ImportBehavior.ok ∧ env.genCallable = true ∧
      env.parserImportOk = true := by
  cases hs : env.search with
  | httpExc => simp [convert_idealist_to_geo, hs] at h
  | raises => simp [convert_idealist_to_geo, hs] at h
  | ok links =>
    cases hc : env.cgImport with
    | sysExit => simp [convert_idealist_to_geo, hs, hc] at h
    | raisesExc => simp [convert_idealist_to_geo, hs, hc] at h
    | ok =>
      cases hgc : env.genCallable with
      | false => simp [convert_idealist_to_geo, hs, hc, hgc] at h
      | true =>
        cases hpi : env.parserImportOk with
        | false => simp [convert_idealist_to_geo, hs, hc, hgc, hpi] at h
        | true => exact ⟨links, rfl, rfl, rfl, rfl⟩

/-- Every completion call recorded in the trace of the whole run is a call
recorded by the retry loop. -/
lemma convert_mem_call_loop (env : Env) (cfg : Config) (i : Nat)
    (m : Option String)
    (h : Event.callGemini i m ∈ (convert_idealist_to_geo env cfg).1) :
    Event.callGemini i m ∈
      (attemptLoop env cfg cfg.maxRetries.toNat 0 none).1 := by
  obtain ⟨links, hs, hc, hgc, hpi⟩ := convert_run_facts env cfg _ h
  cases hl : (attemptLoop env cfg cfg.maxRetries.toNat 0 none).2 with
  | error d =>
    rw [convert_error_path env cfg links d hs hc hgc hpi hl] at h
    exact h
  | ok op =>
    cases op with
    | none =>
      rw [convert_none_path env cfg links hs hc hgc hpi hl] at h
      exact h
    | some parsed =>
      rw [convert_some_path env cfg links parsed hs hc hgc hpi hl] at h
      rcases List.mem_append.mp h with h1 | h1
      · exact h1
      · simp at h1

/-- The reconciler output is never longer than the link list. -/
lemma add_links_length (p : List GeoRecord) (links : List String) :
    (add_links_to_locations p links).length ≤ links.length := by
  simp [add_links_to_locations]

/-- C1: the claim states that when every attempt transport-succeeds but
yields an empty parse, the function raises the 502 upstream-unparsable error
after exactly maxRetries attempts.  The code does not: this theorem evaluates
the embedded code on the failing input (maxRetries = 2, completion always
returns the text ERROR, parser raises on it, hence both parses are treated as
empty).  Both attempts happen, and then the function returns normally with
the reconciliation of the empty record list (the empty list), because the
post-loop guard tests whether `parsed_locations` is None while the exhausted
loop leaves it equal to the empty list. -/
theorem C1_unparsable_exhaustion_returns_ok :
    convert_idealist_to_geo envUnparsable cfgTwo =
      ([Event.callGemini 1 none, Event.parseCall 1 ("ERROR"), Event.sleep 6,
        Event.callGemini 2 none, Event.parseCall 2 ("ERROR"),
        Event.reconcileCall []],
       Outcome.ok []) := by decide

/-- C2 counterexample: when importing gemini.call_gemini raises an ordinary
exception, the operation does not surface an error: it returns the normal
empty result, with an empty trace (no completion call, no retry of the
module load).  This refutes the claim that the whole operation fails in
that case. -/
theorem C2_counterexample :
    convert_idealist_to_geo envImportExc cfgTwo = ([], Outcome.ok []) := by
  decide

/-- C2 (amended): if constructing the completion client fails with an
ordinary exception, or generate_response is missing or not callable, the
operation returns the empty list as a normal result, with no completion call
and no retry of the import; only a SystemExit raised during the import (for
example on missing credentials) propagates as a failure of the whole
operation. -/
theorem C2_amended_import_failure (env : Env) (cfg : Config)
    (links : List String) (hs : env.search = SearchBehavior.ok links) :
    (env.cgImport = ImportBehavior.raisesExc →
       convert_idealist_to_geo env cfg = ([], Outcome.ok [])) ∧
    (env.cgImport = ImportBehavior.ok → env.genCallable = false →
       convert_idealist_to_geo env cfg = ([], Outcome.ok [])) ∧
    (env.cgImport = ImportBehavior.sysExit →
       convert_idealist_to_geo env cfg = ([], Outcome.sysExitPropagated)) := by
  refine ⟨?_, ?_, ?_⟩
  · intro hc
    simp [convert_idealist_to_geo, hs, hc]
  · intro hc hgc
    simp [convert_idealist_to_geo, hs, hc, hgc]
  · intro hc
    simp [convert_idealist_to_geo, hs, hc]

/-- C2 witness: the amended statement applied to the fixture in which
generate_response is missing. -/
theorem C2_witness :
    convert_idealist_to_geo envNoGen cfgTwo = ([], Outcome.ok []) :=
  (C2_amended_import_failure envNoGen cfgTwo wLinks rfl).2.1 rfl rfl

/-- C3: if the completion client raises on every invocation, the function
invokes it exactly maxRetries times (never more), sleeps 0.8 x attempt time
units (8 x attempt tenths) after each non-final failed attempt, and after the
final attempt raises the 502 transport error. -/
theorem C3_transport_retry_exhaustion (env : Env) (cfg : Config)
    (links : List String) (hs : env.search = SearchBehavior.ok links)
    (hc : env.cgImport = ImportBehavior.ok) (hgc : env.genCallable = true)
    (hpi : env.parserImportOk = true)
    (hAll : ∀ i, env.gen i = GenBehavior.raises)
    (hmr : 1 ≤ cfg.maxRetries) :
    (convert_idealist_to_geo env cfg).2 =
      Outcome.httpError 502 ("Upstream Gemini call failed repeatedly.") ∧
    callCount (convert_idealist_to_geo env cfg).1 = cfg.maxRetries.toNat ∧
    sleeps (convert_idealist_to_geo env cfg).1 =
      (List.range (cfg.maxRetries.toNat - 1)).map (fun k => 8 * (k + 1)) := by
  have hr : 0 < cfg.maxRetries.toNat := by omega
  obtain ⟨h1, h2, h3⟩ :=
    attemptLoop_allRaise env cfg hAll cfg.maxRetries.toNat 0 none hr
  rw [convert_error_path env cfg links _ hs hc hgc hpi h1]
  refine ⟨rfl, h2, ?_⟩
  rw [h3]
  refine List.map_congr_left ?_
  intro k _
  omega

/-- C3 witness: two attempts, always-raising client: exactly two calls, one
sleep of 0.8 time units, and the transport 502. -/
theorem C3_witness :
    (convert_idealist_to_geo envAllRaise cfgTwo).2 =
      Outcome.httpError 502 ("Upstream Gemini call failed repeatedly.") ∧
    callCount (convert_idealist_to_geo envAllRaise cfgTwo).1 = 2 ∧
    sleeps (convert_idealist_to_geo envAllRaise cfgTwo).1 = [8] := by
  have h := C3_transport_retry_exhaustion envAllRaise cfgTwo wLinks rfl rfl
    rfl rfl (fun i => rfl) (by decide)
  exact ⟨h.1, h.2.1, h.2.2.trans (by decide)⟩

/-- C4: on every attempt the model argument passed to the completion client
follows the selection rule: a caller-supplied (truthy) model is used on every
attempt; otherwise attempt 1 uses fastModel (possibly no model) and every
attempt from 2 on uses strongModel when configured, else fastModel, else no
model. -/
theorem C4_model_escalation (env : Env) (cfg : Config) (i : Nat)
    (m : Option String)
    (hmem : Event.callGemini i m ∈ (convert_idealist_to_geo env cfg).1) :
    (truthy cfg.model = true → m = cfg.model) ∧
    (truthy cfg.model = false →
      (i = 1 → m = cfg.fastModel) ∧
      (2 ≤ i → m = pyOr cfg.strongModel cfg.fastModel)) := by
  have hloop := convert_mem_call_loop env cfg i m hmem
  obtain ⟨hlo, hhi, hm⟩ :=
    attemptLoop_mem_call env cfg cfg.maxRetries.toNat 0 none i m hloop
  subst hm
  constructor
  · intro ht
    by_cases hi : i = 1 <;> simp [modelFor, pyOr, hi, ht]
  · intro hf
    constructor
    · intro hi
      simp [modelFor, pyOr, hi, hf]
    · intro hi
      have hne : ¬ i = 1 := by omega
      simp [modelFor, pyOr, hne, hf]

/-- C4 witness: with no caller model, fast f and strong s configured, attempt
2 of the unparsable fixture run is called with the strong model. -/
theorem C4_witness :
    some ("s") = pyOr cfgModels.strongModel cfgModels.fastModel :=
  ((C4_model_escalation envUnparsable cfgModels 2 (some ("s"))
      (by decide)).2 (by decide)).2 (by decide)

/-- C5: as soon as an attempt yields a non-empty parsed record list the loop
stops: no completion call with a later attempt number occurs anywhere in the
run, and exactly that parsed list is the one passed to the reconciler,
without any per-link completeness validation. -/
theorem C5_first_success_stops (env : Env) (cfg : Config) (j : Nat)
    (m : Option String) (text : String) (rs : List GeoRecord)
    (hgj : env.gen j = GenBehavior.returns text)
    (hpt : env.parse text = ParseBehavior.records rs) (hne : rs ≠ [])
    (hmem : Event.callGemini j m ∈ (convert_idealist_to_geo env cfg).1) :
    (∀ i m2, j < i →
       Event.callGemini i m2 ∉ (convert_idealist_to_geo env cfg).1) ∧
    Event.reconcileCall rs ∈ (convert_idealist_to_geo env cfg).1 := by
  obtain ⟨links, hs, hc, hgc, hpi⟩ := convert_run_facts env cfg _ hmem
  have hloop := convert_mem_call_loop env cfg j m hmem
  obtain ⟨hres, hno⟩ := attemptLoop_first_success env cfg j text rs hgj hpt
    hne cfg.maxRetries.toNat 0 none m hloop
  rw [convert_some_path env cfg links rs hs hc hgc hpi hres]
  constructor
  · intro i m2 hji hmem2
    rcases List.mem_append.mp hmem2 with h1 | h1
    · exact hno i m2 hji h1
    · simp at h1
  · simp

/-- C5 witness: in the one-record-success fixture, attempt 1 succeeds and the
parsed list reaches the reconciler. -/
theorem C5_witness :
    Event.reconcileCall [recA] ∈
      (convert_idealist_to_geo envSuccess cfgTwo).1 :=
  (C5_first_success_stops envSuccess cfgTwo 1 none ("OK") [recA] rfl rfl
    (by decide) (by decide)).2

/-- C6: a parser exception or a None return on any attempt is not propagated
to the caller: the whole run (trace and outcome alike) is exactly the run in
which the parser returns the empty record list on those texts. -/
theorem C6_parse_failure_treated_empty (env : Env) (cfg : Config) :
    convert_idealist_to_geo { env with parse := normalizeParse env.parse }
      cfg = convert_idealist_to_geo env cfg := by
  obtain ⟨s, c, g, pOk, gen, parse, rf⟩ := env
  cases s with
  | httpExc => rfl
  | raises => rfl
  | ok links =>
    cases c with
    | sysExit => rfl
    | raisesExc => rfl
    | ok =>
      cases g with
      | false => rfl
      | true =>
        cases pOk with
        | false => rfl
        | true =>
          simp [convert_idealist_to_geo, attemptLoop_normalize]

/-- C7: if the reconciler raises after a successful non-empty parse, the
operation does not fail: it returns the parsed, unreconciled records
verbatim. -/
theorem C7_reconciliation_degrade (env : Env) (cfg : Config) (j : Nat)
    (m : Option String) (text : String) (rs : List GeoRecord)
    (hgj : env.gen j = GenBehavior.returns text)
    (hpt : env.parse text = ParseBehavior.records rs) (hne : rs ≠ [])
    (hmem : Event.callGemini j m ∈ (convert_idealist_to_geo env cfg).1)
    (hrf : env.reconcileFails = true) :
    (convert_idealist_to_geo env cfg).2 = Outcome.ok rs := by
  obtain ⟨links, hs, hc, hgc, hpi⟩ := convert_run_facts env cfg _ hmem
  have hloop := convert_mem_call_loop env cfg j m hmem
  have hres := (attemptLoop_first_success env cfg j text rs hgj hpt hne
    cfg.maxRetries.toNat 0 none m hloop).1
  rw [convert_some_path env cfg links rs hs hc hgc hpi hres]
  simp [hrf]

/-- C7 witness: successful one-record parse plus a raising reconciler returns
the parsed record verbatim. -/
theorem C7_witness :
    (convert_idealist_to_geo envDegrade cfgTwo).2 = Outcome.ok [recA] :=
  C7_reconciliation_degrade envDegrade cfgTwo 1 none ("OK") [recA] rfl rfl
    (by decide) (by decide) rfl

/-- C8: a caller-facing HTTPException from the link search is re-raised
unchanged, and any other exception from the link search makes the operation
return the empty list; in both cases the trace is empty, so the completion
client is never invoked. -/
theorem C8_search_failure (env : Env) (cfg : Config) :
    (env.search = SearchBehavior.httpExc →
       convert_idealist_to_geo env cfg = ([], Outcome.searchHTTPReRaised)) ∧
    (env.search = SearchBehavior.raises →
       convert_idealist_to_geo env cfg = ([], Outcome.ok [])) := by
  constructor
  · intro hs
    simp [convert_idealist_to_geo, hs]
  · intro hs
    simp [convert_idealist_to_geo, hs]

/-- C8 witness: both search-failure fixtures, at the two-attempt
configuration. -/
theorem C8_witness :
    convert_idealist_to_geo envSearchHttp cfgTwo =
      ([], Outcome.searchHTTPReRaised) ∧
    convert_idealist_to_geo envSearchRaises cfgTwo = ([], Outcome.ok []) :=
  ⟨(C8_search_failure envSearchHttp cfgTwo).1 rfl,
   (C8_search_failure envSearchRaises cfgTwo).2 rfl⟩

/-- C9 counterexample: with one input link, a parser that returns two records
and a reconciler that raises, the degrade path returns both records: the
final list is longer than the link list, refuting the unconditional length
bound. -/
theorem C9_counterexample :
    (convert_idealist_to_geo envOversize cfgTwo).2 =
      Outcome.ok [recA, recB] ∧
    ¬ ([recA, recB] : List GeoRecord).length ≤ oneLink.length := by decide

/-- C9 (amended): for an input link list of length L, every non-error return
path (the reconciled path, the degrade path that returns unreconciled parsed
records, and the empty-result paths) yields a list of length at most L,
provided every record list the parser returns has length at most L (the
documented order-and-omission assumption on the parser; the core does not
enforce it). -/
theorem C9_amended_length_bound (env : Env) (cfg : Config)
    (links : List String) (rs : List GeoRecord)
    (hs : env.search = SearchBehavior.ok links)
    (hp : ∀ t l, env.parse t = ParseBehavior.records l →
       l.length ≤ links.length)
    (hok : (convert_idealist_to_geo env cfg).2 = Outcome.ok rs) :
    rs.length ≤ links.length := by
  cases hc : env.cgImport with
  | sysExit => simp [convert_idealist_to_geo, hs, hc] at hok
  | raisesExc =>
    simp [convert_idealist_to_geo, hs, hc] at hok
    subst hok
    simp
  | ok =>
    cases hgc : env.genCallable with
    | false =>
      simp [convert_idealist_to_geo, hs, hc, hgc] at hok
      subst hok
      simp
    | true =>
      cases hpi : env.parserImportOk with
      | false => simp [convert_idealist_to_geo, hs, hc, hgc, hpi] at hok
      | true =>
        cases hl : (attemptLoop env cfg cfg.maxRetries.toNat 0 none).2 with
        | error d =>
          rw [convert_error_path env cfg links d hs hc hgc hpi hl] at hok
          exact absurd hok (by simp)
        | ok op =>
          cases op with
          | none =>
            rw [convert_none_path env cfg links hs hc hgc hpi hl] at hok
            exact absurd hok (by simp)
          | some parsed =>
            rw [convert_some_path env cfg links parsed hs hc hgc hpi hl]
              at hok
            have hplen : parsed.length ≤ links.length := by
              rcases attemptLoop_ok_origin env cfg cfg.maxRetries.toNat 0
                  none parsed hl with h1 | h1 | h1
              · exact absurd h1 (by simp)
              · rw [h1]; simp
              · obtain ⟨t, ht⟩ := h1
                exact hp t parsed ht
            have hrs : rs = if env.reconcileFails then parsed
                else add_links_to_locations parsed links :=
              (Outcome.ok.inj hok).symm
            rw [hrs]
            cases env.reconcileFails with
            | true => simpa using hplen
            | false => simpa using add_links_length parsed links

/-- C9 witness: the amended bound at the one-record-success fixture with two
links. -/
theorem C9_witness :
    (add_links_to_locations [recA] wLinks).length ≤ wLinks.length :=
  C9_amended_length_bound envSuccess cfgTwo wLinks
    (add_links_to_locations [recA] wLinks) rfl
    (by intro t l h; injection h with h2; subst h2; decide) (by decide)

/-- C10: if the configured retry count is zero or negative and the search and
both imports succeed, the function makes no completion call and no parser
call (the trace is empty) and raises the 502 error with detail Failed to
obtain parsable response from Gemini. -/
theorem C10_nonpositive_retries (env : Env) (cfg : Config)
    (links : List String) (hs : env.search = SearchBehavior.ok links)
    (hc : env.cgImport = ImportBehavior.ok) (hgc : env.genCallable = true)
    (hpi : env.parserImportOk = true) (hmr : cfg.maxRetries ≤ 0) :
    convert_idealist_to_geo env cfg =
      ([], Outcome.httpError 502
        ("Failed to obtain parsable response from Gemini.")) := by
  have h0 : cfg.maxRetries.toNat = 0 := by omega
  have hl : attemptLoop env cfg cfg.maxRetries.toNat 0 none =
      ([], Except.ok none) := by
    rw [h0]
    simp [attemptLoop]
  have h2 := convert_none_path env cfg links hs hc hgc hpi (by rw [hl])
  rw [h2, hl]

/-- C10 witness: a zero retry budget with otherwise healthy collaborators. -/
theorem C10_witness :
    convert_idealist_to_geo envAllRaise cfgZero =
      ([], Outcome.httpError 502
        ("Failed to obtain parsable response from Gemini.")) :=
  C10_nonpositive_retries envAllRaise cfgZero wLinks rfl rfl rfl rfl
    (by decide)

end IdealistToGeo
